import Mathlib

/-!
# Verification of the Debricked CLI file-classification and scan-pipeline core

This file shallowly embeds, in Lean 4, the two parts of the repository that
the specification covers:

* the glob-based path classification engine (`Excluded`, `Exclusions`,
  `DefaultExclusions`, `DefaultExclusionsFingerprint`) from
  `internal/file`, and
* the scan-pipeline orchestrator (`Scan` / `scan` / `handleScanError` /
  `WriteApiReplyToJsonFile` and the per-stage helpers) from
  `internal/scan/scanner.go`.

Pure Go functions become Lean functions; the pipeline's collaborator calls
(resolver, fingerprinter, call-graph generator, finder, uploader, SBOM
reporter) become explicit outcome fields of a `Collaborators` record, and
the pipeline additionally returns the trace of collaborator calls it made,
so that "stage X never executes" is a statement about the trace.
-/

namespace Debricked

/-! ## Glob matching (spec-modelled)

The matcher implementation (`internal/file/exclusion.go`) is consumed here
through its specified semantics.  Matching is per path segment; a `**`
pattern segment matches zero or more whole path segments; inside a
segment, `*` matches any run of non-separator characters and `?` a single
non-separator character.  A fuel argument bounds the recursion; the fuel
`p.length + s.length + 1` is always sufficient because every recursive
call strictly decreases the combined length of the two lists. -/

/-- Modelled from the spec: single-segment glob matching for
`internal/file/exclusion.go` (file not in the sources; §4.2 of the spec:
`*` matches any run of non-separator characters, `?` a single
non-separator character, other characters match literally). -/
def matchSegmentFuel : Nat → List Char → List Char → Bool
  | 0, _, _ => false
  | _ + 1, [], [] => true
  | _ + 1, [], _ :: _ => false
  | f + 1, '*' :: ps, [] => matchSegmentFuel f ps []
  | f + 1, '*' :: ps, c :: cs =>
      matchSegmentFuel f ps (c :: cs) || matchSegmentFuel f ('*' :: ps) cs
  | _ + 1, '?' :: _, [] => false
  | f + 1, '?' :: ps, _ :: cs => matchSegmentFuel f ps cs
  | f + 1, p :: ps, c :: cs => p == c && matchSegmentFuel f ps cs
  | _ + 1, _ :: _, [] => false

/-- Modelled from the spec: a single pattern segment matched against a
single path segment. -/
def matchSegment (p s : List Char) : Bool :=
  matchSegmentFuel (p.length + s.length + 1) p s

/-- Splitting a character list on a separator, with the semantics of Go's
`strings.Split` (an empty input yields one empty field; a trailing
separator yields a trailing empty field). -/
def splitOnChar (sep : Char) : List Char → List (List Char)
  | [] => [[]]
  | c :: cs =>
      let rest := splitOnChar sep cs
      if c == sep then
        [] :: rest
      else
        match rest with
        | [] => [[c]]
        | r :: rs => (c :: r) :: rs

/-- Modelled from the spec: segment-list glob matching for
`internal/file/exclusion.go` (§4.2: a `**` pattern segment matches zero or
more whole path segments; any other pattern segment matches exactly one
path segment). -/
def matchSegsFuel : Nat → List (List Char) → List (List Char) → Bool
  | 0, _, _ => false
  | _ + 1, [], [] => true
  | _ + 1, [], _ :: _ => false
  | f + 1, p :: ps, ss =>
      if p == ['*', '*'] then
        matchSegsFuel f ps ss ||
          (match ss with
            | [] => false
            | _ :: ss2 => matchSegsFuel f (p :: ps) ss2)
      else
        match ss with
        | [] => false
        | s :: ss2 => matchSegment p s && matchSegsFuel f ps ss2

/-- Modelled from the spec: whole-path glob matching, splitting pattern
and path on the canonical separator `/`. -/
def globMatch (pattern path : String) : Bool :=
  let ps := splitOnChar '/' pattern.data
  let ss := splitOnChar '/' path.data
  matchSegsFuel (ps.length + ss.length + 1) ps ss

/-- Modelled from the spec: `Excluded(exclusions, inclusions, path)` of
`internal/file/exclusion.go` (file not in the sources; §4.2: if any
inclusion pattern matches the path return `false` immediately; otherwise
return whether some exclusion pattern matches). -/
def Excluded (exclusions inclusions : List String) (path : String) : Bool :=
  if inclusions.any (fun pattern => globMatch pattern path) then
    false
  else
    exclusions.any (fun pattern => globMatch pattern path)

/-! ## Default exclusion lists (`internal/file/default_exclusion.go`)

`filepath.Join` is evaluated with the canonical separator `/`, the form
the spec's patterns use. -/

/-- `DefaultExclusions` of `internal/file/default_exclusion.go`. -/
def DefaultExclusions : List String :=
  ["**/node_modules/**", "**/vendor/**", "**/.git/**", "**/obj/**"]

/-- `EXCLUDED_DIRS_FINGERPRINT` of `internal/file/default_exclusion.go`. -/
def EXCLUDED_DIRS_FINGERPRINT : List String :=
  ["nbproject", "nbbuild", "nbdist", "node_modules",
   "__pycache__", "_yardoc", "eggs",
   "wheels", "htmlcov", "__pypackages__"]

/-- `EXCLUDED_DIRS_FINGERPRINT_RAW` of
`internal/file/default_exclusion.go`. -/
def EXCLUDED_DIRS_FINGERPRINT_RAW : List String :=
  ["**/*.egg-info/**", "**/*venv/**"]

/-- `DefaultExclusionsFingerprint` of
`internal/file/default_exclusion.go`. -/
def DefaultExclusionsFingerprint : List String :=
  (EXCLUDED_DIRS_FINGERPRINT.map (fun d => "**/" ++ d ++ "/**")) ++
    EXCLUDED_DIRS_FINGERPRINT_RAW

/-- Modelled from the spec: the additional fixed platform excludes that
`Exclusions()` appends to `DefaultExclusions()` (`internal/file/exclusion.go`
is not in the sources; the expected list is pinned by
`TestExclusionsWithEmptyTokenEnvVariable`). -/
def defaultExclusionsPlatform : List String :=
  ["**/bower_components/**", "**/.vscode-test/**"]

/-- Modelled from the spec: `Exclusions()` of
`internal/file/exclusion.go` (file not in the sources; §4.1: a non-empty
environment override is split on commas into literal patterns that
replace the default set wholesale; an empty or absent override yields the
defaults plus the fixed platform excludes).  The argument is the value of
the override environment variable as `os.Getenv` returns it (`""` when
unset). -/
def Exclusions (envValue : String) : List String :=
  if envValue ≠ "" then
    (splitOnChar ',' envValue.data).map (fun cs => ⟨cs⟩)
  else
    DefaultExclusions ++ defaultExclusionsPlatform

/-! ## Scan pipeline (`internal/scan/scanner.go`)

The pipeline's collaborators (resolver, fingerprinter, call-graph
generator, finder, uploader, SBOM reporter, `os.Chdir`,
`git.NewMetaObject`, `os.WriteFile`) are embedded as a record of their
outcomes for the run; each pipeline function additionally returns the
ordered trace of collaborator calls it performed, so claims about which
stages execute are statements about the trace. -/

/-- `AutomationRule` as the scanner consumes it: `rule.Triggered` and the
result of `rule.FailPipeline()`. -/
structure AutomationRule where
  Triggered : Bool
  FailPipeline : Bool
deriving DecidableEq

/-- The fields of `upload.UploadResult` that `Scan` reads. -/
structure UploadResult where
  LongQueue : Bool
  DetailsUrl : String
  VulnerabilitiesFound : Nat
  AutomationRules : List AutomationRule
deriving DecidableEq

/-- The error values the scanner distinguishes.  `failPipelineErr` is
`FailPipelineErr = errors.New("")` (the error with empty message);
`noResErr` is `client.NoResErr`; `badOptsErr` is `BadOptsErr`; every
other error carries its message.  Go compares these by object identity,
embedded here as constructor identity. -/
inductive Err where
  | badOptsErr
  | failPipelineErr
  | noResErr
  | stageErr (msg : String)
deriving DecidableEq

/-- `DebrickedOptions` of `internal/scan/scanner.go`. -/
structure DebrickedOptions where
  Path : String
  Resolve : Bool
  Fingerprint : Bool
  CallGraph : Bool
  SBOM : String
  SBOMOutput : String
  Exclusions : List String
  Inclusions : List String
  Verbose : Bool
  Debug : Bool
  Regenerate : Int
  VersionHint : Bool
  RepositoryName : String
  CommitName : String
  GenerateCommitName : Bool
  BranchName : String
  CommitAuthor : String
  RepositoryUrl : String
  IntegrationName : String
  JsonFilePath : String
  NpmPreferred : Bool
  PassOnTimeOut : Bool
  CallGraphUploadTimeout : Int
  CallGraphGenerateTimeout : Int
  MinFingerprintContentLength : Int
  TagCommitAsRelease : Bool
  Experimental : Bool
  Version : String
deriving DecidableEq

instance {ε α : Type} [DecidableEq ε] [DecidableEq α] :
    DecidableEq (Except ε α) := fun a b =>
  match a, b with
  | Except.error x, Except.error y =>
      if h : x = y then isTrue (by rw [h]) else isFalse (by simp [h])
  | Except.error _, Except.ok _ => isFalse (by simp)
  | Except.ok _, Except.error _ => isFalse (by simp)
  | Except.ok x, Except.ok y =>
      if h : x = y then isTrue (by rw [h]) else isFalse (by simp [h])

/-- Outcomes of the external collaborator calls for one run.  `none`
means the call succeeds; `some e` that it returns error `e`. -/
structure Collaborators where
  chdirResult : Option Err
  gitMetaResult : Option Err
  resolveResult : Option Err
  isEnterpriseCustomer : Bool
  fingerprintFilesResult : Option Err
  fingerprintToFileResult : Option Err
  callgraphResult : Option Err
  getGroupsResult : Option Err
  uploadResult : Except Err UploadResult
  sbomParseResult : Option Err
  sbomOrderResult : Option Err
  jsonWriteResult : Option Err
deriving DecidableEq

/-- The collaborator calls a run can perform, in pipeline order. -/
inductive Call where
  | resolve
  | fingerprintFiles
  | fingerprintToFile
  | callgraphGenerate
  | getGroups
  | upload
  | reportSBOM
deriving DecidableEq

/-- The canonical stage order of the pipeline:
Resolve → Fingerprint → CallGraph → GroupFiles → Upload → ReportSBOM. -/
def stageOrder : List Call :=
  [Call.resolve, Call.fingerprintFiles, Call.fingerprintToFile,
   Call.callgraphGenerate, Call.getGroups, Call.upload, Call.reportSBOM]

/-- `scanResolve`: `resolver.Resolve` runs only when the `Resolve` toggle
is on; its error is returned, otherwise `nil`. -/
def scanResolve (options : DebrickedOptions) (c : Collaborators) :
    Option Err × List Call :=
  if options.Resolve then
    (c.resolveResult, [Call.resolve])
  else
    (none, [])

/-- `scanFingerprint`: when the `Fingerprint` toggle is on but the client
is not an enterprise customer, return `nil` immediately (no fingerprinting,
no output file); otherwise fingerprint the files and, on success, write
the output file, returning the write's error. -/
def scanFingerprint (options : DebrickedOptions) (c : Collaborators) :
    Option Err × List Call :=
  if options.Fingerprint then
    if !c.isEnterpriseCustomer then
      (none, [])
    else
      match c.fingerprintFilesResult with
      | some e => (some e, [Call.fingerprintFiles])
      | none =>
          (c.fingerprintToFileResult, [Call.fingerprintFiles, Call.fingerprintToFile])
  else
    (none, [])

/-- The call-graph stage of `scan`: `callgraph.GenerateWithTimer` runs
only when the `CallGraph` toggle is on. -/
def callgraphStage (options : DebrickedOptions) (c : Collaborators) :
    Option Err × List Call :=
  if options.CallGraph then
    (c.callgraphResult, [Call.callgraphGenerate])
  else
    (none, [])

/-- `scanReportSBOM`: skipped (returns `nil`) when no SBOM format is
configured; otherwise `ParseDetailsURL` may fail, and then
`reporter.Order` runs. -/
def scanReportSBOM (options : DebrickedOptions) (c : Collaborators) :
    Option Err × List Call :=
  if options.SBOM = "" then
    (none, [])
  else
    match c.sbomParseResult with
    | some e => (some e, [Call.reportSBOM])
    | none => (c.sbomOrderResult, [Call.reportSBOM])

/-- Sequencing of a fallible stage before the rest of the pipeline: an
error in the stage aborts the rest (whose calls never happen), otherwise
the rest runs after the stage's calls. -/
def andThen (step : Option Err × List Call)
    (rest : Except Err UploadResult × List Call) :
    Except Err UploadResult × List Call :=
  match step with
  | (some e, t) => (Except.error e, t)
  | (none, t) => (rest.1, t ++ rest.2)

/-- The tail of `scan`: `uploader.Upload`, then on success ReportSBOM;
an SBOM failure discards the result and propagates the error. -/
def uploadStage (options : DebrickedOptions) (c : Collaborators) :
    Except Err UploadResult × List Call :=
  match c.uploadResult with
  | Except.error e => (Except.error e, [Call.upload])
  | Except.ok result =>
      match scanReportSBOM options c with
      | (some e, t) => (Except.error e, Call.upload :: t)
      | (none, t) => (Except.ok result, Call.upload :: t)

/-- `scan` (lower case) of `internal/scan/scanner.go`: Resolve, then
Fingerprint, then CallGraph, then `finder.GetGroups`, then
`uploader.Upload`, then ReportSBOM; the first error aborts the rest. -/
def scan (options : DebrickedOptions) (c : Collaborators) :
    Except Err UploadResult × List Call :=
  andThen (scanResolve options c) <|
  andThen (scanFingerprint options c) <|
  andThen (callgraphStage options c) <|
  andThen (c.getGroupsResult, [Call.getGroups]) <|
  uploadStage options c

/-- `handleScanError`: the one recoverable case — `client.NoResErr` with
the pass-on-timeout policy enabled is logged and turned into success. -/
def handleScanError (err : Err) (passOnTimeOut : Bool) : Option Err :=
  if err = Err.noResErr ∧ passOnTimeOut = true then
    none
  else
    some err

/-- The `failPipeline` accumulation loop of `Scan` (lines 147–151):
`failPipeline = failPipeline || (rule.Triggered && rule.FailPipeline())`
over the rules in order. -/
def computeFailPipeline (rules : List AutomationRule) : Bool :=
  rules.foldl (fun acc rule => acc || (rule.Triggered && rule.FailPipeline)) false

/-- `WriteApiReplyToJsonFile`: writes the marshalled `UploadResult` only
when a JSON file path is configured; the outcome of `os.WriteFile` is
discarded (`_ = os.WriteFile(...)`), so the function reports only whether
a write was attempted and can propagate no error. -/
def WriteApiReplyToJsonFile (options : DebrickedOptions)
    (_jsonWriteResult : Option Err) : Bool :=
  if options.JsonFilePath ≠ "" then true else false

/-- The observable outcome of one `Scan` run: the returned error (if
any), whether the JSON result file was written, whether the verdict loop
ran, and the rules rendered to the user. -/
structure ScanOutcome where
  err : Option Err
  jsonWritten : Bool
  verdictComputed : Bool
  renderedRules : List AutomationRule
deriving DecidableEq

/-- `Scan` (upper case) of `internal/scan/scanner.go`.  The `IOptions`
type assertion always succeeds here because the embedding is typed;
`SetWorkingDirectory` resolves the root, `chdir`s to it and clears
`Path`; `git.NewMetaObject` may fail; then `scan` runs, its error filtered
through `handleScanError`; a long-queue result returns success with no
JSON write and no verdict; otherwise the JSON file is written on request,
every rule is rendered, and the accumulated verdict decides between
`FailPipelineErr` and success. -/
def Scan (options : DebrickedOptions) (c : Collaborators) : ScanOutcome :=
  match c.chdirResult with
  | some e => { err := some e, jsonWritten := false, verdictComputed := false,
                renderedRules := [] }
  | none =>
    let options := { options with Path := "" }
    match c.gitMetaResult with
    | some e => { err := some e, jsonWritten := false, verdictComputed := false,
                  renderedRules := [] }
    | none =>
      match (scan options c).1 with
      | Except.error e =>
          { err := handleScanError e options.PassOnTimeOut,
            jsonWritten := false, verdictComputed := false, renderedRules := [] }
      | Except.ok result =>
          if result.LongQueue then
            { err := none, jsonWritten := false, verdictComputed := false,
              renderedRules := [] }
          else
            { err := if computeFailPipeline result.AutomationRules then
                       some Err.failPipelineErr
                     else
                       none,
              jsonWritten := WriteApiReplyToJsonFile options c.jsonWriteResult,
              verdictComputed := true,
              renderedRules := result.AutomationRules }

/-! ## Sample configurations, used to instantiate the theorems below -/

/-- A representative option set: resolve and fingerprint on, call graph
and SBOM off, pass-on-timeout off. -/
def sampleOptions : DebrickedOptions :=
  { Path := "."
    Resolve := true
    Fingerprint := true
    CallGraph := false
    SBOM := ""
    SBOMOutput := ""
    Exclusions := []
    Inclusions := []
    Verbose := false
    Debug := false
    Regenerate := 0
    VersionHint := false
    RepositoryName := "repo"
    CommitName := "commit"
    GenerateCommitName := false
    BranchName := "main"
    CommitAuthor := "dev"
    RepositoryUrl := "https://example.com/repo.git"
    IntegrationName := "CLI"
    JsonFilePath := ""
    NpmPreferred := false
    PassOnTimeOut := false
    CallGraphUploadTimeout := 600
    CallGraphGenerateTimeout := 300
    MinFingerprintContentLength := 0
    TagCommitAsRelease := false
    Experimental := false
    Version := "v1" }

/-- A non-long-queue upload result with one triggered, pipeline-failing
rule. -/
def sampleResult : UploadResult :=
  { LongQueue := false
    DetailsUrl := "https://example.com/details"
    VulnerabilitiesFound := 2
    AutomationRules := [{ Triggered := true, FailPipeline := true }] }

/-- Collaborators that all succeed, the upload returning
`sampleResult`. -/
def sampleCollaborators : Collaborators :=
  { chdirResult := none
    gitMetaResult := none
    resolveResult := none
    isEnterpriseCustomer := true
    fingerprintFilesResult := none
    fingerprintToFileResult := none
    callgraphResult := none
    getGroupsResult := none
    uploadResult := Except.ok sampleResult
    sbomParseResult := none
    sbomOrderResult := none
    jsonWriteResult := none }

/-! ## Helper lemmas -/

lemma foldl_or_eq_any (rules : List AutomationRule) (b : Bool) :
    rules.foldl (fun acc rule => acc || (rule.Triggered && rule.FailPipeline)) b
      = (b || rules.any fun rule => rule.Triggered && rule.FailPipeline) := by
  induction rules generalizing b with
  | nil => simp
  | cons r rs ih => simp [List.foldl_cons, ih, Bool.or_assoc]

lemma computeFailPipeline_eq_any (rules : List AutomationRule) :
    computeFailPipeline rules
      = (rules.any fun rule => rule.Triggered && rule.FailPipeline) := by
  simp [computeFailPipeline, foldl_or_eq_any]

lemma mem_andThen (x : Call) (s : Option Err × List Call)
    (r : Except Err UploadResult × List Call) :
    x ∈ (andThen s r).2 ↔ x ∈ s.2 ∨ (s.1 = none ∧ x ∈ r.2) := by
  rcases s with ⟨e, t⟩
  cases e <;> simp [andThen]

lemma andThen_sublist {s : Option Err × List Call}
    {r : Except Err UploadResult × List Call} {pre post : List Call}
    (hs : s.2.Sublist pre) (hr : r.2.Sublist post) :
    (andThen s r).2.Sublist (pre ++ post) := by
  rcases s with ⟨e, t⟩
  cases e
  · simpa [andThen] using hs.append hr
  · simp only [andThen]
    exact hs.trans (List.sublist_append_left pre post)

lemma scanResolve_trace (options : DebrickedOptions) (c : Collaborators) :
    (scanResolve options c).2.Sublist [Call.resolve] := by
  unfold scanResolve
  split
  · exact List.Sublist.refl _
  · exact List.nil_sublist _

lemma scanFingerprint_trace (options : DebrickedOptions) (c : Collaborators) :
    (scanFingerprint options c).2.Sublist
      [Call.fingerprintFiles, Call.fingerprintToFile] := by
  unfold scanFingerprint
  split
  · split
    · exact List.nil_sublist _
    · split
      · simp
      · exact List.Sublist.refl _
  · exact List.nil_sublist _

lemma callgraphStage_trace (options : DebrickedOptions) (c : Collaborators) :
    (callgraphStage options c).2.Sublist [Call.callgraphGenerate] := by
  unfold callgraphStage
  split
  · exact List.Sublist.refl _
  · exact List.nil_sublist _

lemma scanReportSBOM_trace (options : DebrickedOptions) (c : Collaborators) :
    (scanReportSBOM options c).2.Sublist [Call.reportSBOM] := by
  unfold scanReportSBOM
  split
  · exact List.nil_sublist _
  · split
    · exact List.Sublist.refl _
    · exact List.Sublist.refl _

lemma uploadStage_trace (options : DebrickedOptions) (c : Collaborators) :
    (uploadStage options c).2.Sublist [Call.upload, Call.reportSBOM] := by
  unfold uploadStage
  split
  · simp
  · split
    next result e t heq =>
      have := scanReportSBOM_trace options c
      rw [heq] at this
      exact this.cons₂ Call.upload
    next result e t heq =>
      have := scanReportSBOM_trace options c
      rw [heq] at this
      exact this.cons₂ Call.upload

lemma scan_trace_abort (options : DebrickedOptions) (c : Collaborators)
    (h : (scanResolve options c).1.isSome = true
        ∨ (scanFingerprint options c).1.isSome = true
        ∨ (callgraphStage options c).1.isSome = true
        ∨ c.getGroupsResult.isSome = true)
    (x : Call)
    (hx1 : x ∉ [Call.resolve])
    (hx2 : x ∉ [Call.fingerprintFiles, Call.fingerprintToFile])
    (hx3 : x ∉ [Call.callgraphGenerate])
    (hx4 : x ∉ [Call.getGroups]) :
    x ∉ (scan options c).2 := by
  intro hmem
  simp only [scan] at hmem
  rw [mem_andThen] at hmem
  rcases hmem with hmem | ⟨he1, hmem⟩
  · exact hx1 ((scanResolve_trace options c).subset hmem)
  rw [mem_andThen] at hmem
  rcases hmem with hmem | ⟨he2, hmem⟩
  · exact hx2 ((scanFingerprint_trace options c).subset hmem)
  rw [mem_andThen] at hmem
  rcases hmem with hmem | ⟨he3, hmem⟩
  · exact hx3 ((callgraphStage_trace options c).subset hmem)
  rw [mem_andThen] at hmem
  rcases hmem with hmem | ⟨he4, hmem⟩
  · exact hx4 hmem
  rcases h with h | h | h | h
  · rw [he1] at h
    simp at h
  · rw [he2] at h
    simp at h
  · rw [he3] at h
    simp at h
  · simp only [Option.isSome] at he4 h
    rw [he4] at h
    simp at h

/-! ## Claim theorems -/

/-- C1: for every exclusion list, every inclusion list and every path, if
at least one inclusion pattern glob-matches the path then `Excluded`
returns `false`, regardless of how many exclusion patterns match —
inclusions strictly dominate. -/
theorem Excluded_inclusions_dominate
    (exclusions inclusions : List String) (path : String)
    (h : inclusions.any (fun pattern => globMatch pattern path) = true) :
    Excluded exclusions inclusions path = false := by
  simp [Excluded, h]

/-- Witness for C1 at the test's concrete inputs: the inclusion
`**/package.json` matches `node_modules/package.json`, so the path is not
excluded despite matching `**/node_modules/**`. -/
theorem Excluded_inclusions_dominate_witness :
    (["**/package.json"].any
        (fun pattern => globMatch pattern ("node_modules/package.json")) = true)
    ∧ Excluded ["**/node_modules/**"] ["**/package.json"]
        "node_modules/package.json" = false :=
  ⟨by decide,
   Excluded_inclusions_dominate ["**/node_modules/**"] ["**/package.json"]
     "node_modules/package.json" (by decide)⟩

/-- C2: a bare-filename exclusion pattern without wildcard or separator
matches a path only when it is exactly the last (and only) segment: it
matches `composer.json` itself but not the nested
`sub/dir/composer.json`, while `**/composer.json` matches the nested
occurrence. -/
theorem Excluded_bare_filename :
    Excluded ["composer.json"] [] "composer.json" = true
    ∧ Excluded ["composer.json"] [] "sub/dir/composer.json" = false
    ∧ Excluded ["**/composer.json"] [] "sub/dir/composer.json" = true := by
  decide

/-- C7: a non-empty override environment value is split on commas into
literal patterns, used verbatim in order, that entirely replace the
default set — at the test's value the result is exactly the three raw
patterns. -/
theorem Exclusions_override_split :
    Exclusions ("*/**.lock,**/node_modules/**,*\\**.ex")
      = ["*/**.lock", "**/node_modules/**", "*\\**.ex"] := by
  decide

/-- C8: an override set to the empty string is treated as absent —
`Exclusions` returns the general defaults followed by the fixed platform
extras, in order, not the empty list. -/
theorem Exclusions_empty_override :
    Exclusions ("") = DefaultExclusions ++ defaultExclusionsPlatform
    ∧ Exclusions ("") = ["**/node_modules/**", "**/vendor/**", "**/.git/**",
        "**/obj/**", "**/bower_components/**", "**/.vscode-test/**"]
    ∧ Exclusions ("") ≠ [] := by
  decide

/-- C3: after a successful, non-long-queue upload, the pipeline's verdict
is the OR over all automation rules of `Triggered && FailPipeline`: it
returns the distinguished empty-message `FailPipelineErr` exactly when
some rule has both flags, returns success exactly otherwise, and renders
every rule (hence every triggered rule) before the verdict. -/
theorem Scan_verdict (options : DebrickedOptions) (c : Collaborators)
    (result : UploadResult)
    (h1 : c.chdirResult = none) (h2 : c.gitMetaResult = none)
    (hok : (scan { options with Path := "" } c).1 = Except.ok result)
    (hq : result.LongQueue = false) :
    computeFailPipeline result.AutomationRules
      = (result.AutomationRules.any fun rule => rule.Triggered && rule.FailPipeline)
    ∧ ((Scan options c).err = some Err.failPipelineErr
        ↔ (result.AutomationRules.any fun rule =>
            rule.Triggered && rule.FailPipeline) = true)
    ∧ ((Scan options c).err = none
        ↔ (result.AutomationRules.any fun rule =>
            rule.Triggered && rule.FailPipeline) = false)
    ∧ (Scan options c).renderedRules = result.AutomationRules := by
  have hS : Scan options c =
      { err := if computeFailPipeline result.AutomationRules then
                 some Err.failPipelineErr
               else
                 none,
        jsonWritten := WriteApiReplyToJsonFile { options with Path := "" }
          c.jsonWriteResult,
        verdictComputed := true,
        renderedRules := result.AutomationRules } := by
    simp [Scan, h1, h2, hok, hq]
  refine ⟨computeFailPipeline_eq_any _, ?_, ?_, ?_⟩ <;>
    rw [hS, computeFailPipeline_eq_any] <;>
    cases hcase : (result.AutomationRules.any fun rule =>
        rule.Triggered && rule.FailPipeline) <;>
    simp

/-- Witness for C3: with all collaborators succeeding and a single
triggered, pipeline-failing rule, `Scan` returns `FailPipelineErr`. -/
theorem Scan_verdict_witness :
    (Scan sampleOptions sampleCollaborators).err = some Err.failPipelineErr :=
  (Scan_verdict sampleOptions sampleCollaborators sampleResult rfl rfl
      (by decide) rfl).2.1.mpr (by decide)

/-- C4: the trace of collaborator calls is always a subsequence of the
canonical stage order Resolve, Fingerprint, CallGraph, GroupFiles,
Upload, ReportSBOM; and if any stage before Upload returns an error,
Upload and ReportSBOM never execute. -/
theorem scan_stage_order_abort (options : DebrickedOptions)
    (c : Collaborators) :
    (scan options c).2.Sublist stageOrder
    ∧ (((scanResolve options c).1.isSome = true
          ∨ (scanFingerprint options c).1.isSome = true
          ∨ (callgraphStage options c).1.isSome = true
          ∨ c.getGroupsResult.isSome = true) →
        Call.upload ∉ (scan options c).2
        ∧ Call.reportSBOM ∉ (scan options c).2) := by
  constructor
  · have h : (scan options c).2.Sublist
        ([Call.resolve] ++ ([Call.fingerprintFiles, Call.fingerprintToFile]
          ++ ([Call.callgraphGenerate] ++ ([Call.getGroups]
            ++ [Call.upload, Call.reportSBOM])))) := by
      simp only [scan]
      exact andThen_sublist (scanResolve_trace options c)
        (andThen_sublist (scanFingerprint_trace options c)
          (andThen_sublist (callgraphStage_trace options c)
            (andThen_sublist (List.Sublist.refl _)
              (uploadStage_trace options c))))
    simpa [stageOrder] using h
  · intro h
    exact ⟨scan_trace_abort options c h Call.upload
        (by decide) (by decide) (by decide) (by decide),
      scan_trace_abort options c h Call.reportSBOM
        (by decide) (by decide) (by decide) (by decide)⟩

/-- Witness for C4: when dependency resolution fails, neither Upload nor
ReportSBOM appears in the trace. -/
theorem scan_stage_order_abort_witness :
    Call.upload ∉ (scan sampleOptions
      { sampleCollaborators with
          resolveResult := some (Err.stageErr ("resolution failed")) }).2
    ∧ Call.reportSBOM ∉ (scan sampleOptions
      { sampleCollaborators with
          resolveResult := some (Err.stageErr ("resolution failed")) }).2 :=
  (scan_stage_order_abort sampleOptions
      { sampleCollaborators with
          resolveResult := some (Err.stageErr ("resolution failed")) }).2
    (Or.inl (by decide))

/-- C5: every error of the inner pipeline bubbles unmodified out of
`Scan`, except exactly the case where the error is the distinguished
`client.NoResErr` and the pass-on-timeout policy is enabled, in which
case `Scan` returns success. -/
theorem Scan_error_propagation (options : DebrickedOptions)
    (c : Collaborators) (e : Err)
    (h1 : c.chdirResult = none) (h2 : c.gitMetaResult = none)
    (herr : (scan { options with Path := "" } c).1 = Except.error e) :
    ((e = Err.noResErr ∧ options.PassOnTimeOut = true) →
        (Scan options c).err = none)
    ∧ (¬(e = Err.noResErr ∧ options.PassOnTimeOut = true) →
        (Scan options c).err = some e) := by
  have hS : Scan options c =
      { err := handleScanError e options.PassOnTimeOut,
        jsonWritten := false, verdictComputed := false,
        renderedRules := [] } := by
    simp [Scan, h1, h2, herr]
  constructor <;> intro h <;> rw [hS] <;> simp [handleScanError, h]

/-- Witness for C5: a `NoResErr` from upload polling with pass-on-timeout
enabled yields a successful run. -/
theorem Scan_error_propagation_witness :
    (Scan { sampleOptions with PassOnTimeOut := true }
      { sampleCollaborators with
          uploadResult := Except.error Err.noResErr }).err = none :=
  (Scan_error_propagation { sampleOptions with PassOnTimeOut := true }
      { sampleCollaborators with uploadResult := Except.error Err.noResErr }
      Err.noResErr rfl rfl (by decide)).1 ⟨rfl, rfl⟩

/-- C6: a long-queue upload outcome terminates the pipeline successfully,
writes no JSON result file, runs no verdict computation and renders no
rules — so no pipeline-failure condition can be produced in that run. -/
theorem Scan_long_queue (options : DebrickedOptions) (c : Collaborators)
    (result : UploadResult)
    (h1 : c.chdirResult = none) (h2 : c.gitMetaResult = none)
    (hok : (scan { options with Path := "" } c).1 = Except.ok result)
    (hq : result.LongQueue = true) :
    (Scan options c).err = none
    ∧ (Scan options c).jsonWritten = false
    ∧ (Scan options c).verdictComputed = false
    ∧ (Scan options c).renderedRules = [] := by
  simp [Scan, h1, h2, hok, hq]

/-- Witness for C6: a long-queue result containing a triggered,
pipeline-failing rule still yields success with no JSON write and no
verdict. -/
theorem Scan_long_queue_witness :
    (Scan { sampleOptions with JsonFilePath := "result.json" }
        { sampleCollaborators with
            uploadResult := Except.ok { sampleResult with LongQueue := true } }).err
      = none
    ∧ (Scan { sampleOptions with JsonFilePath := "result.json" }
        { sampleCollaborators with
            uploadResult := Except.ok { sampleResult with LongQueue := true } }).jsonWritten
      = false :=
  have h := Scan_long_queue { sampleOptions with JsonFilePath := "result.json" }
    { sampleCollaborators with
        uploadResult := Except.ok { sampleResult with LongQueue := true } }
    { sampleResult with LongQueue := true } rfl rfl (by decide) rfl
  ⟨h.1, h.2.1⟩

/-- C9: with the Fingerprint toggle on but a non-enterprise client, the
fingerprint stage succeeds while calling neither the fingerprinter nor
the output-file writer, and the whole pipeline behaves exactly as if the
toggle were off. -/
theorem scanFingerprint_non_enterprise (options : DebrickedOptions)
    (c : Collaborators)
    (hf : options.Fingerprint = true) (he : c.isEnterpriseCustomer = false) :
    scanFingerprint options c = (none, [])
    ∧ scan options c = scan { options with Fingerprint := false } c := by
  have hfp : scanFingerprint options c = (none, []) := by
    simp [scanFingerprint, hf, he]
  have hfp2 : scanFingerprint { options with Fingerprint := false } c
      = (none, []) := by
    simp [scanFingerprint]
  refine ⟨hfp, ?_⟩
  simp only [scan, hfp, hfp2]
  rfl

/-- Witness for C9: concrete non-enterprise run with fingerprinting
requested. -/
theorem scanFingerprint_non_enterprise_witness :
    scanFingerprint sampleOptions
      { sampleCollaborators with isEnterpriseCustomer := false }
      = (none, []) :=
  (scanFingerprint_non_enterprise sampleOptions
      { sampleCollaborators with isEnterpriseCustomer := false } rfl rfl).1

/-- C10: the JSON result file is written exactly when a JSON file path is
configured, the write propagates no error whatever `os.WriteFile`
returns, and the whole `Scan` outcome is identical whether the write
succeeds or fails. -/
theorem WriteApiReplyToJsonFile_no_effect (options : DebrickedOptions)
    (c : Collaborators) (w1 w2 : Option Err) :
    WriteApiReplyToJsonFile options w1 = (options.JsonFilePath != "")
    ∧ WriteApiReplyToJsonFile options w1 = WriteApiReplyToJsonFile options w2
    ∧ Scan options { c with jsonWriteResult := w1 }
        = Scan options { c with jsonWriteResult := w2 } := by
  refine ⟨?_, rfl, rfl⟩
  by_cases h : options.JsonFilePath = "" <;>
    simp [WriteApiReplyToJsonFile, h, bne]

end Debricked
